import Mathlib

/-!
Verification of the MCP gateway fragment (`src/mcp_server/main.py`,
`src/mcp_server/auth_asgi.py`): bearer-token auth wrapper, path
normalisation, transport mux, and the minimal fallback router.

Strings are modelled as `List Char`; the Python string operations used by
the source (`strip`, `split`, `startswith`, slicing, `lower`) are defined
below to match CPython semantics on the inputs the source feeds them.
-/

namespace MCPGateway

/-- Strings of the embedded program, as character lists. -/
abbrev Str := List Char

/-- Coerce a Lean string literal into the embedding's string type. -/
def str (s : String) : Str := s.toList

/-- Whitespace characters recognised by Python's `str.strip()` /
`str.split(None)` (ASCII portion, which is all the source ever meets). -/
def isWs (c : Char) : Bool :=
  c = ' ' || c = '\t' || c = '\n' || c = '\x0d' || c = '\x0b' || c = '\x0c'

/-- Drop leading Python-whitespace. -/
def pyStripLeft : Str → Str
  | [] => []
  | c :: cs => if isWs c then pyStripLeft cs else c :: cs

/-- Python `str.strip()`: drop leading and trailing whitespace. -/
def pyStrip (s : Str) : Str :=
  (pyStripLeft (pyStripLeft s).reverse).reverse

/-- Split off the longest whitespace-free head of a string. -/
def takeUntilWs : Str → Str × Str
  | [] => ([], [])
  | c :: cs =>
    if isWs c then ([], c :: cs)
    else
      let p := takeUntilWs cs
      (c :: p.1, p.2)

/-- Python `str.split(None, 1)`: at most two fields, split at the first
whitespace run, leading whitespace of the remainder consumed. -/
def splitWs1 (s : Str) : List Str :=
  let s := pyStripLeft s
  if s = [] then []
  else
    let p := takeUntilWs s
    let rest := pyStripLeft p.2
    if rest = [] then [p.1] else [p.1, rest]

/-- Python `str.lower()` (ASCII). -/
def toLowerStr (s : Str) : Str := s.map Char.toLower

/-- Python `s.startswith(pre)`. -/
def startsWith : Str → Str → Bool
  | [], _ => true
  | _ :: _, [] => false
  | p :: ps, c :: cs => p = c && startsWith ps cs

/-- Python `str.removeprefix`. -/
def removePfx (pre s : Str) : Str :=
  if startsWith pre s then s.drop pre.length else s

/-- Python `s.split(sep)` for a one-character separator. -/
def splitChar (sep : Char) : Str → List Str
  | [] => [[]]
  | c :: cs =>
    if c = sep then [] :: splitChar sep cs
    else
      match splitChar sep cs with
      | [] => [[c]]
      | t :: ts => (c :: t) :: ts

/-- Header lists as received in an ASGI scope (name, value pairs). -/
abbrev Headers := List (Str × Str)

/-- The source builds `{k.lower(): v for k, v in scope["headers"]}` and then
looks keys up with a default of `""`: lower-cased keys, last occurrence
wins, absent key yields the empty string. -/
def headerGet (hs : Headers) (k : Str) : Str :=
  hs.foldl (fun acc p => if toLowerStr p.1 = k then p.2 else acc) []

/-- Python `k in headers` on that same lower-cased dict: key presence. -/
def hasHeaderKey (hs : Headers) (k : Str) : Bool :=
  hs.any fun p => toLowerStr p.1 = k

/-- ASGI scope kinds the gateway distinguishes (`scope["type"]`). -/
inductive ScopeType
  | http
  | websocket
  | lifespan
deriving DecidableEq

/-- The slice of an ASGI scope the gateway reads: type, path, headers, raw
query string, and the accumulated mount prefix (`root_path`). -/
structure Scope where
  typ : ScopeType
  path : Str
  headers : Headers
  query : Str
  rootPath : Str
deriving DecidableEq

/-- What a call to one of the wrappers does with a connection: pass it to
the wrapped inner application, answer it directly with an HTTP response
(status, headers, body), or send a websocket close frame. -/
inductive Outcome
  | forward
  | httpResp (status : Nat) (hdrs : List (Str × Str)) (body : Str)
  | wsClose (code : Nat)
deriving DecidableEq

/-- Configuration of `main.MCPAuthASGI` as fixed in `__init__`: the
protected path prefix (env `MCP_PREFIX`, default `/mcp`, right-stripped of
`/`), the expected token (env `MCP_BEARER` / `MCP_TOKEN` / `dev-token`,
stripped of whitespace and quotes), and the `ALLOW_CF_ACCESS` flag. -/
structure AuthCfg where
  pfx : Str
  token : Str
  allowCfAccess : Bool
deriving DecidableEq

/-- `main.py` lines 82-86: candidate from the `Authorization` header.
`if auth_hdr:` then `parts = auth_hdr.strip().split(None, 1)`; a candidate
exists iff there are exactly two parts and the scheme lower-cases to
`bearer`; the candidate is `parts[1].strip()`. -/
def bearerCand (hs : Headers) : Option Str :=
  let a := headerGet hs (str "authorization")
  if a ≠ [] then
    match splitWs1 (pyStrip a) with
    | [s, t] => if toLowerStr s = str "bearer" then some (pyStrip t) else none
    | _ => none
  else none

/-- `main.py` lines 89-91: `x_token = headers.get("x-auth-token", "")`;
`if x_token: supplied = x_token.strip()`. `some` iff the raw header value
is non-empty (its stripped form may still be empty). -/
def altCand (hs : Headers) : Option Str :=
  let x := headerGet hs (str "x-auth-token")
  if x ≠ [] then some (pyStrip x) else none

/-- Scan `q.split("&")` for the first `auth=`-field, as in `main.py` lines
96-99: on a hit the loop assigns `kv[5:] or None` and breaks (`some r`
where `r` is that assignment); `none` when no field starts with `auth=`. -/
def firstAuthAssign : List Str → Option (Option Str)
  | [] => none
  | kv :: rest =>
    if startsWith (str "auth=") kv then
      some (if kv.drop 5 = [] then none else some (kv.drop 5))
    else firstAuthAssign rest

/-- `main.py` lines 93-99: the query source only runs on a falsy `supplied`
and a non-empty query string; a found `auth=` field overwrites `supplied`,
otherwise `supplied` is left as it was. -/
def queryStep (q : Str) (supplied : Option Str) : Option Str :=
  if q ≠ [] then
    match firstAuthAssign (splitChar '&' q) with
    | some r => r
    | none => supplied
  else supplied

/-- Python truthiness of the `supplied` variable: falsy iff `None` or the
empty string. -/
def isFalsy : Option Str → Bool
  | none => true
  | some s => s.isEmpty

/-- The whole credential-extraction block of `main.MCPAuthASGI.__call__`
(lines 81-99): `supplied` starts as the bearer candidate; each later
source is consulted only while `supplied` is falsy. -/
def extractSupplied (hs : Headers) (q : Str) : Option Str :=
  let s1 := bearerCand hs
  let s2 :=
    if isFalsy s1 then
      match altCand hs with
      | some v => some v
      | none => s1
    else s1
  if isFalsy s2 then queryStep q s2 else s2

/-- The path guard of `main.MCPAuthASGI.__call__` line 74:
`path == self.prefix or path.startswith(self.prefix + "/")`, with `path`
defaulted to `/` when empty (line 73). -/
def underPfx (cfg : AuthCfg) (sc : Scope) : Prop :=
  (if sc.path = [] then str "/" else sc.path) = cfg.pfx ∨
    startsWith (cfg.pfx ++ str "/") (if sc.path = [] then str "/" else sc.path) = true

instance (cfg : AuthCfg) (sc : Scope) : Decidable (underPfx cfg sc) := by
  unfold underPfx; infer_instance

/-- `main.MCPAuthASGI.__call__` (lines 66-110): lifespan scopes pass
through; http/websocket scopes under the prefix pass when the
`ALLOW_CF_ACCESS` bypass applies or the extracted credential equals the
configured token, and are otherwise answered with a 401
`WWW-Authenticate: Bearer` plain-text response (sent for websocket scopes
too); everything else passes through. -/
def mainAuthCall (cfg : AuthCfg) (sc : Scope) : Outcome :=
  match sc.typ with
  | .lifespan => .forward
  | _ =>
    if underPfx cfg sc then
      if cfg.allowCfAccess = true ∧
          hasHeaderKey sc.headers (str "cf-access-jwt-assertion") = true then
        .forward
      else if extractSupplied sc.headers sc.query = some cfg.token then
        .forward
      else
        .httpResp 401 [(str "WWW-Authenticate", str "Bearer")] (str "Unauthorized")
    else .forward

/-- `auth_asgi.py` lines 21-22: `supplied` is the `Authorization` value
with the (case-sensitive) `"Bearer "` text removed and stripped, or, when
that is empty, the raw `x-mcp-token` header value. -/
def asgiSupplied (hs : Headers) : Str :=
  let a := pyStrip (removePfx (str "Bearer ") (headerGet hs (str "authorization")))
  if a ≠ [] then a else headerGet hs (str "x-mcp-token")

/-- The rejection test of `auth_asgi.py` line 23:
`if not self.token or supplied != self.token`. -/
def asgiReject (token supplied : Str) : Prop :=
  token = [] ∨ supplied ≠ token

instance (token supplied : Str) : Decidable (asgiReject token supplied) := by
  unfold asgiReject; infer_instance

/-- `auth_asgi.MCPAuthASGI.__call__` (lines 16-31): paths starting with
`/mcp` are gated; a rejected websocket scope gets a close frame with code
4401, any other rejected scope gets a 401 JSON response; otherwise the
inner application is called. -/
def asgiAuthCall (token : Str) (sc : Scope) : Outcome :=
  if startsWith (str "/mcp") sc.path = true then
    if asgiReject token (asgiSupplied sc.headers) then
      if sc.typ = .websocket then .wsClose 4401
      else
        .httpResp 401 [(str "content-type", str "application/json")]
          (str "\x7b\"detail\":\"unauthorized\"\x7d")
    else .forward
  else .forward

/-- `main.MCPMux.__call__` lines 208-209: strip the accumulated mount
prefix (`root_path`) when it is non-empty and the path starts with it; an
empty remainder collapses to `/`. -/
def stripRoot (p m : Str) : Str :=
  if m ≠ [] ∧ startsWith m p = true then
    if p.drop m.length = [] then str "/" else p.drop m.length
  else p

/-- `main.MCPMux.__call__` lines 212-215, generalised over the protected
prefix (the source fixes it to the literal `/mcp`): a path equal to the
prefix (with or without trailing slash) collapses to `/`; a path starting
with `prefix + "/"` has exactly one copy of the prefix removed, an empty
remainder collapsing to `/`; any other path is untouched. -/
def stripOwnPfx (x p : Str) : Str :=
  if p = x ∨ p = x ++ str "/" then str "/"
  else if startsWith (x ++ str "/") p = true then
    if p.drop x.length = [] then str "/" else p.drop x.length
  else p

/-- The path normaliser of `MCPMux.__call__` (lines 203-215): strip the
mount prefix, then defensively strip one residual copy of the protected
prefix. The source instantiates `x := "/mcp"`. -/
def normalize (p m x : Str) : Str := stripOwnPfx x (stripRoot p m)

/-- The normaliser as the mux runs it: protected prefix fixed to `/mcp`. -/
def muxLocal (raw root : Str) : Str := normalize raw root (str "/mcp")

/-- Which backend a mux dispatch targets. -/
inductive Target
  | httpApp
  | sseApp
deriving DecidableEq

/-- The scope fields handed to the chosen backend: its `path` and
`root_path` after the mux's rewriting. -/
structure Dispatch where
  target : Target
  path : Str
  rootPath : Str
deriving DecidableEq

/-- The construction-time probe (`main.py` lines 182-187):
`HTTP_NEEDS_INNER_PREFIX = "/mcp" in child_paths`. -/
def needsInnerPfxProbe (childPaths : List Str) : Bool :=
  decide (str "/mcp" ∈ childPaths)

/-- The routing body of `MCPMux.__call__` for http/websocket scopes
(lines 202-250): normalise, then dispatch. Local `/` goes to the HTTP app
— with `root_path` cleared and path forced to `/mcp` when the probe is
true, with the scope forwarded as-is otherwise. Local paths starting with
`/sse` or `/messages` go to the SSE app, everything else falls back to the
HTTP app; both of those overwrite `path` with the normalised local path
when it differs from the raw path and never touch `root_path`. -/
def muxRoute (needsInnerPfx : Bool) (raw root : Str) : Dispatch :=
  let rawP := if raw = [] then str "/" else raw
  let loc := muxLocal rawP root
  if loc = str "/" then
    if needsInnerPfx then ⟨.httpApp, str "/mcp", []⟩
    else ⟨.httpApp, rawP, root⟩
  else if startsWith (str "/sse") loc = true ∨
      startsWith (str "/messages") loc = true then
    if loc ≠ rawP then ⟨.sseApp, loc, root⟩ else ⟨.sseApp, rawP, root⟩
  else
    if loc ≠ rawP then ⟨.httpApp, loc, root⟩ else ⟨.httpApp, rawP, root⟩

/-- Response bodies of the fallback assembly, tagged by shape:
`errUnavailable m` stands for `{"error": m}`; `okTransportNone` for
`{"ok": true, "transport": "none", "reason": ...}`; `rootHint` for the
`{"ok": false, "hint": ...}` body of `GET /`; `notFound` for the
framework's default 404 body. -/
inductive FBody
  | errUnavailable (m : Str)
  | okTransportNone
  | rootHint
  | notFound
deriving DecidableEq

/-- A fallback response: status code and body shape. -/
structure FResp where
  status : Nat
  body : FBody
deriving DecidableEq

/-- The fallback application (`main.py` lines 116-148 and 269-278): the
minimal router's five routes included under the `/mcp` prefix, plus the
top-level `/health`, with the framework's 404 for anything else. -/
def fallbackApp (method path : Str) : FResp :=
  if method = str "GET" ∧ path = str "/mcp/health" then
    ⟨200, .okTransportNone⟩
  else if method = str "POST" ∧ path = str "/mcp/" then
    ⟨503, .errUnavailable
      (str "MCP HTTP streamable not available. Install/update mcp.server.")⟩
  else if method = str "GET" ∧ path = str "/mcp/sse" then
    ⟨503, .errUnavailable (str "MCP SSE not available. Install/update mcp.server.")⟩
  else if method = str "POST" ∧ path = str "/mcp/messages/" then
    ⟨503, .errUnavailable
      (str "MCP SSE messages not available. Install/update mcp.server.")⟩
  else if method = str "GET" ∧ path = str "/mcp/" then
    ⟨200, .rootHint⟩
  else if method = str "GET" ∧ path = str "/health" then
    ⟨200, .okTransportNone⟩
  else ⟨404, .notFound⟩

/-- Follows the spec's words for claim C2 (section 4.1: extraction order
gated by the `allowAlternateHeader` and `allowDebugQueryToken` flags), to
be compared with `extractSupplied`, the extraction implemented in
`main.py`, which has no such flags. -/
def extractSuppliedSpecOrder (allowAlternateHeader allowDebugQueryToken : Bool)
    (hs : Headers) (q : Str) : Option Str :=
  match bearerCand hs with
  | some t => some t
  | none =>
    match (if allowAlternateHeader then altCand hs else none) with
    | some t => some t
    | none => if allowDebugQueryToken then queryStep q none else none

/-- A non-empty candidate is truthy. -/
theorem isFalsy_cons (c : Char) (cs : List Char) : isFalsy (some (c :: cs)) = false := rfl

/-- The empty candidate is falsy. -/
theorem isFalsy_some_nil : isFalsy (some []) = true := rfl

/-- A found `auth=` query assignment does not depend on the prior value of
`supplied`: the loop overwrites it unconditionally on a hit. -/
theorem queryStep_indep (q : Str) (s : Option Str) (t : Str)
    (h : queryStep q none = some t) : queryStep q s = some t := by
  unfold queryStep at h ⊢
  by_cases hq : q ≠ []
  · rw [if_pos hq] at h ⊢
    cases hfa : firstAuthAssign (splitChar '&' q) with
    | none => rw [hfa] at h; exact absurd h (by simp)
    | some r => rw [hfa] at h; exact h
  · rw [if_neg hq] at h
    exact absurd h (by simp)

/-- C1 (counterexample). The claim as stated is false: with
`ALLOW_CF_ACCESS` enabled, an http request under the protected prefix
whose credential is missing (no bearer, no alternate header, no query
token) but which carries a `cf-access-jwt-assertion` header is forwarded
to the inner application instead of receiving the 401 response. -/
theorem C1_counterexample :
    underPfx ⟨str "/mcp", str "s3cr3t", true⟩
      ⟨ScopeType.http, str "/mcp", [(str "CF-Access-Jwt-Assertion", str "zz")], [], []⟩ ∧
    extractSupplied [(str "CF-Access-Jwt-Assertion", str "zz")] [] = none ∧
    mainAuthCall ⟨str "/mcp", str "s3cr3t", true⟩
      ⟨ScopeType.http, str "/mcp", [(str "CF-Access-Jwt-Assertion", str "zz")], [], []⟩ =
      Outcome.forward := by
  refine ⟨by decide, by decide, by decide⟩

/-- C1 (amended). For every http or websocket scope whose path lies under
the protected prefix, provided the Cloudflare-Access bypass does not apply
(flag off or header absent), a missing or mismatched credential is
answered with a 401 plain-text response carrying `WWW-Authenticate:
Bearer`, and the wrapped inner application is not invoked. -/
theorem C1_reject_before_dispatch (cfg : AuthCfg) (sc : Scope)
    (htyp : sc.typ = ScopeType.http ∨ sc.typ = ScopeType.websocket)
    (hpfx : underPfx cfg sc)
    (hnocf : ¬(cfg.allowCfAccess = true ∧
      hasHeaderKey sc.headers (str "cf-access-jwt-assertion") = true))
    (hcred : extractSupplied sc.headers sc.query = none ∨
      ∃ s, extractSupplied sc.headers sc.query = some s ∧ s ≠ cfg.token) :
    mainAuthCall cfg sc =
      Outcome.httpResp 401 [(str "WWW-Authenticate", str "Bearer")] (str "Unauthorized") := by
  have hne : ¬(extractSupplied sc.headers sc.query = some cfg.token) := by
    rcases hcred with h | ⟨s, hs, hsne⟩
    · simp [h]
    · rw [hs]
      simp only [Option.some.injEq]
      exact hsne
  rcases htyp with h | h <;> simp [mainAuthCall, h, hpfx, hnocf, hne]

/-- C1 (witness): a request under `/mcp` with a wrong bearer token and no
Cloudflare bypass gets the 401 `WWW-Authenticate: Bearer` response. -/
theorem C1_reject_before_dispatch_witness :
    mainAuthCall ⟨str "/mcp", str "s3cr3t", false⟩
      ⟨ScopeType.http, str "/mcp/health", [(str "Authorization", str "Bearer wrong")], [], []⟩ =
      Outcome.httpResp 401 [(str "WWW-Authenticate", str "Bearer")] (str "Unauthorized") :=
  C1_reject_before_dispatch ⟨str "/mcp", str "s3cr3t", false⟩
    ⟨ScopeType.http, str "/mcp/health", [(str "Authorization", str "Bearer wrong")], [], []⟩
    (Or.inl rfl) (by decide) (by decide)
    (Or.inr ⟨str "wrong", by decide, by decide⟩)

/-- C2 (counterexample). The claim as stated is false: the source has no
`allowAlternateHeader` or `allowDebugQueryToken` configuration flags. The
`x-auth-token` header is always consulted (here it yields a candidate,
where the spec's extraction with both flags unset yields none), and the
`auth=` query key is likewise always consulted. -/
theorem C2_counterexample :
    extractSupplied [(str "X-Auth-Token", str "tok123")] [] = some (str "tok123") ∧
    extractSuppliedSpecOrder false false [(str "X-Auth-Token", str "tok123")] [] = none ∧
    extractSupplied [] (str "auth=qtok") = some (str "qtok") ∧
    extractSuppliedSpecOrder false false [] (str "auth=qtok") = none := by
  refine ⟨by decide, by decide, by decide, by decide⟩

/-- C2 (amended). Credential extraction consults sources in a fixed order
with first non-empty match winning and later sources not consulted: first
the `Authorization` header with case-insensitive `Bearer` scheme; if no
non-empty candidate was found there, the `x-auth-token` header (always
consulted — there is no `allowAlternateHeader` flag); if still none, the
first `auth=` key of the query string (always consulted — there is no
`allowDebugQueryToken` flag). -/
theorem C2_extraction_order (hs : Headers) (q : Str) :
    (∀ t, bearerCand hs = some t → t ≠ [] → extractSupplied hs q = some t) ∧
    (isFalsy (bearerCand hs) = true → ∀ t, altCand hs = some t → t ≠ [] →
      extractSupplied hs q = some t) ∧
    (isFalsy (bearerCand hs) = true →
      (altCand hs = none ∨ altCand hs = some []) →
      ∀ t, queryStep q none = some t → extractSupplied hs q = some t) := by
  refine ⟨?_, ?_, ?_⟩
  · rintro t h ht
    cases t with
    | nil => exact absurd rfl ht
    | cons c cs => simp [extractSupplied, h, isFalsy_cons]
  · rintro hb t h ht
    cases t with
    | nil => exact absurd rfl ht
    | cons c cs => simp [extractSupplied, hb, h, isFalsy_cons]
  · rintro hb halt t hq
    rcases halt with h | h
    · simpa [extractSupplied, hb, h] using queryStep_indep q (bearerCand hs) t hq
    · simpa [extractSupplied, hb, h, isFalsy_some_nil] using queryStep_indep q (some []) t hq

/-- C2 (witness): with both a bearer credential and a query credential
present, the bearer value wins. -/
theorem C2_extraction_order_witness :
    extractSupplied [(str "Authorization", str "Bearer abc")] (str "auth=zzz") =
      some (str "abc") :=
  (C2_extraction_order [(str "Authorization", str "Bearer abc")] (str "auth=zzz")).1
    (str "abc") (by decide) (by decide)

/-- C3 (counterexample). The claim as stated is false: the normaliser
strips exactly one residual copy of the protected prefix per application,
so on `p = "/mcp/mcp/a"`, `m = ""`, `x = "/mcp"` the first application
yields `/mcp/a` and a second application strips again to `/a`. -/
theorem C3_counterexample :
    normalize (str "/mcp/mcp/a") [] (str "/mcp") = str "/mcp/a" ∧
    normalize (normalize (str "/mcp/mcp/a") [] (str "/mcp")) [] (str "/mcp") = str "/a" ∧
    normalize (normalize (str "/mcp/mcp/a") [] (str "/mcp")) [] (str "/mcp") ≠
      normalize (str "/mcp/mcp/a") [] (str "/mcp") := by
  refine ⟨by decide, by decide, by decide⟩

/-- C3 (amended). The normaliser is idempotent on every input whose output
retains no leading copy of the protected prefix: for all `p`, `m`, `x`, if
`normalize p m x` neither equals `x` (or `x ++ "/"`) nor starts with
`x ++ "/"`, then `normalize (normalize p m x) "" x = normalize p m x`. -/
theorem C3_normalize_idempotent_on_settled (p m x : Str)
    (h1 : normalize p m x ≠ x)
    (h2 : normalize p m x ≠ x ++ str "/")
    (h3 : startsWith (x ++ str "/") (normalize p m x) = false) :
    normalize (normalize p m x) [] x = normalize p m x := by
  generalize normalize p m x = o at h1 h2 h3 ⊢
  have hroot : stripRoot o [] = o := by
    unfold stripRoot
    simp
  show stripOwnPfx x (stripRoot o []) = o
  rw [hroot]
  unfold stripOwnPfx
  rw [if_neg (fun hc => hc.elim h1 h2), if_neg (by simp [h3])]

/-- C3 (witness): the amended idempotence at `p = "/outer/mcp/sse"`,
`m = "/outer"`, `x = "/mcp"`, whose normal form `/sse` is settled. -/
theorem C3_normalize_idempotent_on_settled_witness :
    normalize (normalize (str "/outer/mcp/sse") (str "/outer") (str "/mcp")) [] (str "/mcp") =
      normalize (str "/outer/mcp/sse") (str "/outer") (str "/mcp") :=
  C3_normalize_idempotent_on_settled (str "/outer/mcp/sse") (str "/outer") (str "/mcp")
    (by decide) (by decide) (by decide)

/-- C4 (counterexample). The claim as stated is false on the probe-false
branch: for raw path `/mcp` with empty `root_path`, the normalised local
path is `/` and the probe over an empty route table is false, yet the
dispatched path is the raw `/mcp`, not `/`: the scope is forwarded
unchanged rather than rewritten to `/`. -/
theorem C4_counterexample :
    muxLocal (str "/mcp") [] = str "/" ∧
    needsInnerPfxProbe [] = false ∧
    muxRoute (needsInnerPfxProbe []) (str "/mcp") [] =
      ⟨Target.httpApp, str "/mcp", []⟩ ∧
    str "/mcp" ≠ str "/" := by
  refine ⟨by decide, by decide, by decide, by decide⟩

/-- C4 (amended). When the normalised local path is `/`, routing selects
the HTTP (request/response) app, and the construction-time probe — true
iff some enumerated child route path equals `/mcp` verbatim — decides the
rewrite: probe true clears `root_path` and forces the path to `/mcp`;
probe false forwards the scope unchanged, its path staying the raw
inbound path (not rewritten to `/`). -/
theorem C4_root_dispatch (cps : List Str) (raw root : Str)
    (hloc : muxLocal (if raw = [] then str "/" else raw) root = str "/") :
    (needsInnerPfxProbe cps = true ↔ str "/mcp" ∈ cps) ∧
    (needsInnerPfxProbe cps = true →
      muxRoute (needsInnerPfxProbe cps) raw root = ⟨Target.httpApp, str "/mcp", []⟩) ∧
    (needsInnerPfxProbe cps = false →
      muxRoute (needsInnerPfxProbe cps) raw root =
        ⟨Target.httpApp, if raw = [] then str "/" else raw, root⟩) := by
  refine ⟨by simp [needsInnerPfxProbe], ?_, ?_⟩ <;>
    intro hp <;> simp [muxRoute, hloc, hp]

/-- C4 (witness): under a nested mount whose accumulated `root_path` is
`/outer/mcp`, raw path `/outer/mcp/mcp` normalises to `/`, and with a
child route table containing `/mcp` the dispatch clears `root_path` and
rewrites the path to `/mcp`. -/
theorem C4_root_dispatch_witness :
    muxRoute (needsInnerPfxProbe [str "/mcp"]) (str "/outer/mcp/mcp") (str "/outer/mcp") =
      ⟨Target.httpApp, str "/mcp", []⟩ :=
  (C4_root_dispatch [str "/mcp"] (str "/outer/mcp/mcp") (str "/outer/mcp")
    (by decide)).2.1 (by decide)

/-- C5 (counterexample). The claim as stated is false: an SSE dispatch
rewrites the path but does not clear `root_path`. For raw path `/mcp/sse`
with `root_path = "/mcp"`, the backend is invoked with path `/sse` and
`root_path` still `/mcp`, not emptied. -/
theorem C5_counterexample :
    muxRoute true (str "/mcp/sse") (str "/mcp") =
      ⟨Target.sseApp, str "/sse", str "/mcp"⟩ ∧
    (str "/mcp" : Str) ≠ [] := by
  refine ⟨by decide, by decide⟩

/-- C5 (amended). Only the probe-true root dispatch clears the
mount-prefix bookkeeping and rewrites the path to `/mcp`; the probe-false
root dispatch forwards the scope unchanged; every other dispatch (SSE and
HTTP fallback) hands the backend the normalised local path while keeping
the inbound `root_path` untouched. -/
theorem C5_dispatch_fields (b : Bool) (raw root : Str) :
    (muxLocal (if raw = [] then str "/" else raw) root = str "/" → b = true →
      muxRoute b raw root = ⟨Target.httpApp, str "/mcp", []⟩) ∧
    (muxLocal (if raw = [] then str "/" else raw) root = str "/" → b = false →
      muxRoute b raw root =
        ⟨Target.httpApp, if raw = [] then str "/" else raw, root⟩) ∧
    (muxLocal (if raw = [] then str "/" else raw) root ≠ str "/" →
      (muxRoute b raw root).path = muxLocal (if raw = [] then str "/" else raw) root ∧
      (muxRoute b raw root).rootPath = root) := by
  refine ⟨fun hloc hb => by simp [muxRoute, hloc, hb],
    fun hloc hb => by simp [muxRoute, hloc, hb], fun hne => ?_⟩
  simp only [muxRoute]
  rw [if_neg hne]
  split <;> split <;> (try split) <;> simp_all

/-- C5 (witness): a messages-route dispatch keeps the inbound `root_path`
and hands the SSE app the normalised path. -/
theorem C5_dispatch_fields_witness :
    (muxRoute true (str "/mcp/messages/x") (str "/mcp")).path = str "/messages/x" ∧
    (muxRoute true (str "/mcp/messages/x") (str "/mcp")).rootPath = str "/mcp" := by
  have h := (C5_dispatch_fields true (str "/mcp/messages/x") (str "/mcp")).2.2 (by decide)
  exact ⟨h.1.trans (by decide), h.2⟩

/-- C6 (counterexample). The claim as stated is false: with
`mountPrefix = "/outer"`, `protectedPrefix = "/mcp"` and raw path
`/outer/mcp/mcp/sse`, normalisation strips only one residual `/mcp` and
yields `/mcp/sse`, and the router dispatches to the HTTP fallback with
path `/mcp/sse` — not to the stream handler with `/sse`. -/
theorem C6_counterexample :
    normalize (str "/outer/mcp/mcp/sse") (str "/outer") (str "/mcp") = str "/mcp/sse" ∧
    str "/mcp/sse" ≠ str "/sse" ∧
    muxRoute true (str "/outer/mcp/mcp/sse") (str "/outer") =
      ⟨Target.httpApp, str "/mcp/sse", str "/outer"⟩ ∧
    muxRoute false (str "/outer/mcp/mcp/sse") (str "/outer") =
      ⟨Target.httpApp, str "/mcp/sse", str "/outer"⟩ := by
  refine ⟨by decide, by decide, by decide, by decide⟩

/-- C6 (amended). For the concrete input with accumulated mount prefix
(`root_path`) `/outer/mcp`, protected prefix `/mcp`, and raw inbound path
`/outer/mcp/mcp/sse`, normalisation produces the local path `/sse`, and
the router (for either probe value) selects the event-stream handler with
rewritten path `/sse`, keeping `root_path` at `/outer/mcp`. -/
theorem C6_concrete_nested_mount :
    normalize (str "/outer/mcp/mcp/sse") (str "/outer/mcp") (str "/mcp") = str "/sse" ∧
    muxRoute true (str "/outer/mcp/mcp/sse") (str "/outer/mcp") =
      ⟨Target.sseApp, str "/sse", str "/outer/mcp"⟩ ∧
    muxRoute false (str "/outer/mcp/mcp/sse") (str "/outer/mcp") =
      ⟨Target.sseApp, str "/sse", str "/outer/mcp"⟩ := by
  refine ⟨by decide, by decide, by decide⟩

/-- C7 (counterexample). The claim as stated is false: not every path
under the protected prefix gets a 503 `{"error": ...}` from the fallback —
`GET /mcp/` is answered 200 with the `{"ok": false, "hint": ...}` body. -/
theorem C7_counterexample :
    startsWith (str "/mcp") (str "/mcp/") = true ∧
    fallbackApp (str "GET") (str "/mcp/") = ⟨200, FBody.rootHint⟩ ∧
    (200 : Nat) ≠ 503 := by
  refine ⟨by decide, by decide, by decide⟩

/-- C7 (amended). With no backend transport constructed, the fallback
answers its protected stub endpoints — `POST /mcp/`, `GET /mcp/sse`,
`POST /mcp/messages/` — with a 503 status and a machine-readable
`{"error": ...}` body; `GET /mcp/` returns a 200 hint body instead; and
the health endpoints (`/health` and `/mcp/health`) answer 200 with the
honest capability body `{"ok": true, "transport": "none", ...}`. -/
theorem C7_fallback_behaviour :
    fallbackApp (str "POST") (str "/mcp/") =
      ⟨503, FBody.errUnavailable
        (str "MCP HTTP streamable not available. Install/update mcp.server.")⟩ ∧
    fallbackApp (str "GET") (str "/mcp/sse") =
      ⟨503, FBody.errUnavailable (str "MCP SSE not available. Install/update mcp.server.")⟩ ∧
    fallbackApp (str "POST") (str "/mcp/messages/") =
      ⟨503, FBody.errUnavailable
        (str "MCP SSE messages not available. Install/update mcp.server.")⟩ ∧
    fallbackApp (str "GET") (str "/mcp/health") = ⟨200, FBody.okTransportNone⟩ ∧
    fallbackApp (str "GET") (str "/health") = ⟨200, FBody.okTransportNone⟩ ∧
    fallbackApp (str "GET") (str "/mcp/") = ⟨200, FBody.rootHint⟩ := by
  refine ⟨by decide, by decide, by decide, by decide, by decide, by decide⟩

/-- C8 (code_bug evidence). At the failing input — a websocket scope under
the protected prefix with a wrong bearer token — `main.MCPAuthASGI` emits
an HTTP-style 401 response on the websocket scope (no close frame), while
the sibling `auth_asgi.MCPAuthASGI` sends the websocket close frame with
code 4401 that the claim describes. -/
theorem C8_ws_auth_failure_behaviour :
    mainAuthCall ⟨str "/mcp", str "s3cr3t", false⟩
      ⟨ScopeType.websocket, str "/mcp/sse",
        [(str "Authorization", str "Bearer wrong")], [], []⟩ =
      Outcome.httpResp 401 [(str "WWW-Authenticate", str "Bearer")] (str "Unauthorized") ∧
    asgiAuthCall (str "s3cr3t")
      ⟨ScopeType.websocket, str "/mcp/sse",
        [(str "Authorization", str "Bearer wrong")], [], []⟩ =
      Outcome.wsClose 4401 := by
  refine ⟨by decide, by decide⟩

/-- C9. The credential verifier of `auth_asgi.py` yields a not-ok result
whenever the supplied token is missing (empty), whenever it differs from
the configured token, and whenever the configured token itself is unset;
with no configured secret, no request under the protected prefix is ever
forwarded to the inner application. -/
theorem C9_verifier_rejects (token : Str) (hs : Headers) (sc : Scope)
    (hpath : startsWith (str "/mcp") sc.path = true) :
    (asgiSupplied hs = [] ∨ asgiSupplied hs ≠ token ∨ token = [] →
      asgiReject token (asgiSupplied hs)) ∧
    (token = [] → asgiAuthCall token sc ≠ Outcome.forward) := by
  constructor
  · intro h
    rcases h with h | h | h
    · by_cases ht : token = []
      · exact Or.inl ht
      · refine Or.inr ?_
        rw [h]
        exact fun hc => ht hc.symm
    · exact Or.inr h
    · exact Or.inl h
  · intro ht
    unfold asgiAuthCall
    rw [if_pos hpath,
      if_pos (show asgiReject token (asgiSupplied sc.headers) from Or.inl ht)]
    split <;> simp

/-- C9 (witness): with an unset configured token, even a request supplying
a well-formed bearer credential is rejected under `/mcp`. -/
theorem C9_verifier_rejects_witness :
    asgiReject [] (asgiSupplied [(str "Authorization", str "Bearer s3cr3t")]) ∧
    asgiAuthCall []
      ⟨ScopeType.http, str "/mcp", [(str "Authorization", str "Bearer s3cr3t")], [], []⟩ ≠
      Outcome.forward := by
  have h := C9_verifier_rejects [] [(str "Authorization", str "Bearer s3cr3t")]
    ⟨ScopeType.http, str "/mcp", [(str "Authorization", str "Bearer s3cr3t")], [], []⟩
    (by decide)
  exact ⟨h.1 (Or.inr (Or.inr rfl)), h.2 rfl⟩

/-- C10. With `ALLOW_CF_ACCESS` enabled, every http or websocket scope
under the protected prefix carrying a `cf-access-jwt-assertion` header (of
any value) is forwarded to the inner application, with no bearer-token
comparison: the result is `forward` for arbitrary headers, query, and
configured token. -/
theorem C10_cf_access_bypass (cfg : AuthCfg) (sc : Scope)
    (hcf : cfg.allowCfAccess = true)
    (htyp : sc.typ = ScopeType.http ∨ sc.typ = ScopeType.websocket)
    (hpfx : underPfx cfg sc)
    (hhdr : hasHeaderKey sc.headers (str "cf-access-jwt-assertion") = true) :
    mainAuthCall cfg sc = Outcome.forward := by
  rcases htyp with h | h <;> simp [mainAuthCall, h, hpfx, hcf, hhdr]

/-- C10 (witness): a request with a CF assertion header and a wrong bearer
token is still forwarded when the flag is on. -/
theorem C10_cf_access_bypass_witness :
    mainAuthCall ⟨str "/mcp", str "s3cr3t", true⟩
      ⟨ScopeType.http, str "/mcp/tools",
        [(str "cf-access-jwt-assertion", str "anyjwt"),
         (str "Authorization", str "Bearer totally-wrong")], [], []⟩ =
      Outcome.forward :=
  C10_cf_access_bypass ⟨str "/mcp", str "s3cr3t", true⟩
    ⟨ScopeType.http, str "/mcp/tools",
      [(str "cf-access-jwt-assertion", str "anyjwt"),
       (str "Authorization", str "Bearer totally-wrong")], [], []⟩
    rfl (Or.inl rfl) (by decide) (by decide)

end MCPGateway
